import Mathlib

/-!
Verification of the Amazon SageMaker Feature Store workshop notebooks.

The notebooks are shallowly embedded: pure Python expressions become Lean
functions, effectful notebook cells become explicit data passed through those
functions, and Python exceptions become `Except` or `Option` values.  External
library behaviour that the notebooks rely on (numpy, the JSONPath filters of
SageMaker batch transform, the SageMaker Search service) is modelled in
definitions whose doc comments say so explicitly; everything else is
translated directly from the notebook cells.
-/

/-! ## Python string primitives

Lean core string comparison and splitting do not reduce well inside kernel
evaluation, so the Python primitives used by the notebooks are re-implemented
over `List Char`.  They follow Python semantics: `<` compares code points
lexicographically, `split` on a one-character separator keeps empty segments,
`int` accepts only all-digit text.
-/

/-- Python lexicographic comparison of two character sequences by code point. -/
def pyStrLtCore : List Char → List Char → Bool
  | [], [] => false
  | [], _ :: _ => true
  | _ :: _, [] => false
  | a :: as, b :: bs =>
    if a.toNat < b.toNat then true
    else if b.toNat < a.toNat then false
    else pyStrLtCore as bs

/-- Python `a < b` on strings: lexicographic comparison by code point. -/
def pyStrLt (a b : String) : Bool := pyStrLtCore a.data b.data

/-- Python `s.split(".")`: splits on every dot and keeps empty segments, so the
result always has one more segment than there are dots. -/
def splitDot : List Char → List (List Char)
  | [] => [[]]
  | c :: rest =>
    if c = '.' then [] :: splitDot rest
    else
      match splitDot rest with
      | [] => [[c]]
      | g :: gs => (c :: g) :: gs

/-- Python `int(s)` for a non-negative decimal literal: `some` of the value
when every character is a digit and the text is non-empty, `none` (a raised
`ValueError`) otherwise. -/
def digitsToNat? (l : List Char) : Option Nat :=
  if l ≠ [] ∧ l.all (fun c => 48 ≤ c.toNat ∧ c.toNat ≤ 57) then
    some (l.foldl (fun n c => 10 * n + (c.toNat - 48)) 0)
  else none

/-- Whether the first list is a prefix of the second (executable). -/
def isPrefixOfChars : List Char → List Char → Bool
  | [], _ => true
  | _ :: _, [] => false
  | a :: as, b :: bs => (a = b) && isPrefixOfChars as bs

/-- Whether `needle` occurs as a contiguous run inside `hay` (executable). -/
def containsChars (hay needle : List Char) : Bool :=
  match hay with
  | [] => isPrefixOfChars needle []
  | _ :: t => isPrefixOfChars needle hay || containsChars t needle

/-- Python substring test `needle in hay`. -/
def strContains (hay needle : String) : Bool := containsChars hay.data needle.data

/-- Python `sep.join(parts)`. -/
def str_join (sep : String) : List String → String
  | [] => ""
  | [x] => x
  | x :: y :: xs => x ++ sep ++ str_join sep (y :: xs)

/-! ## The polling loop of the Iceberg notebook

`wait_for_feature_group_creation_complete` in
`m2_nb3_offline_iceberg_compaction.ipynb` first calls
`feature_group.describe().get("FeatureGroupStatus")`, then loops while the
status equals `Creating`, sleeping five seconds before each re-poll; once a
different status is observed it raises `SystemExit` unless that status is
`Created`.  The successive values returned by `describe()` are embedded as a
list of strings; the function returns the final outcome paired with the total
seconds slept, or `none` when every observed status is `Creating` (the loop is
still running when the observations run out, so on an all-`Creating` stream it
never terminates). -/

inductive WaitOutcome
  | success
  | sysExit (msg : String)
deriving DecidableEq, Repr

/-- Shallow embedding of `wait_for_feature_group_creation_complete`.  The
argument lists the successive `FeatureGroupStatus` values returned by
`describe()`; the result is the outcome and the total seconds slept. -/
def wait_for_feature_group_creation_complete : List String → Option (WaitOutcome × Nat)
  | [] => none
  | status :: rest =>
    if status = "Creating" then
      (wait_for_feature_group_creation_complete rest).map (fun r => (r.1, r.2 + 5))
    else if status = "Created" then some (WaitOutcome.success, 0)
    else some (WaitOutcome.sysExit status, 0)

/-! ## Version gates (C9)

Module 2 search notebook and module 3 notebooks gate on
`sagemaker.__version__ < "2.48.1"` — a Python string comparison.  The Iceberg
notebook instead unpacks `major, minor, patch = sm_version.split(".")` and
reinstalls when `int(major) < 2 or int(minor) < 125`. -/

/-- The gate `sagemaker.__version__ < "2.48.1"` of the search, update and
lineage notebooks: a lexicographic string comparison; `true` triggers a
reinstall of `sagemaker==2.48.1`. -/
def sagemaker_version_gate (v : String) : Bool := pyStrLt v "2.48.1"

/-- The Iceberg notebook gate: `major, minor, patch = sm_version.split(".")`
followed by `int(major) < 2 or int(minor) < 125`; `none` models the `ValueError`
or unpacking error raised when the version does not have exactly three numeric
dot-separated components, `some true` triggers a reinstall of
`sagemaker==2.125.0`. -/
def iceberg_version_gate (v : String) : Option Bool :=
  match splitDot v.data with
  | [major, minor, _patch] =>
    match digitsToNat? major, digitsToNat? minor with
    | some ma, some mi => some (decide (ma < 2) || decide (mi < 125))
    | _, _ => none
  | _ => none

/-- Numeric reading of a `major.minor.patch` version string, used to state
which of two versions is numerically newer. -/
def parse_version (v : String) : Option (Nat × Nat × Nat) :=
  match splitDot v.data with
  | [a, b, c] =>
    match digitsToNat? a, digitsToNat? b, digitsToNat? c with
    | some x, some y, some z => some (x, y, z)
    | _, _, _ => none
  | _ => none

/-- Numeric (component-wise lexicographic) version order, executable. -/
def version_triple_lt : Nat × Nat × Nat → Nat × Nat × Nat → Bool
  | (a, b, c), (x, y, z) =>
    decide (a < x) || (decide (a = x) && (decide (b < y) || (decide (b = y) && decide (c < z))))

/-- Python exceptions raised by the embedded pandas operations. -/
inductive PyErr
  | indexError
  | keyError (k : String)
  | valueError
  | attributeError
deriving DecidableEq, Repr

/-! ## generate_fsets of the batch-scoring notebook (C10)

The notebook builds, for each feature group description, a DataFrame of its
`FeatureDefinitions`, drops the rows whose `FeatureName` is in `exclude_fsets`
(only when `exclude_fsets` is truthy, i.e. neither `None` nor empty), and
concatenates the results with `pd.concat(_fg_lst, ignore_index=True)`.  Two
inputs raise: when `exclude_fsets` is truthy and a group has an empty
`FeatureDefinitions` list, the empty `pd.DataFrame` built from it has no
`FeatureName` attribute and the loop raises `AttributeError`; and when
`fg_list` is empty, `pd.concat` of the empty list raises `ValueError` (no
objects to concatenate). -/

structure FeatureDefinition where
  FeatureName : String
  FeatureType : String
deriving DecidableEq, Repr

structure FeatureGroupDescription where
  FeatureGroupName : String
  FeatureDefinitions : List FeatureDefinition
deriving DecidableEq, Repr

/-- Python truthiness of an optional list: `None` and `[]` are falsy. -/
def py_truthy_list : Option (List String) → Bool
  | none => false
  | some l => !l.isEmpty

/-- Shallow embedding of `generate_fsets(fg_list, exclude_fsets)`, with the
two error paths of the source: `AttributeError` when the loop filters a group
whose `FeatureDefinitions` frame is empty (only under a truthy
`exclude_fsets`), `ValueError` when the final `pd.concat` gets no objects. -/
def generate_fsets (fg_list : List FeatureGroupDescription)
    (exclude_fsets : Option (List String)) : Except PyErr (List FeatureDefinition) :=
  if py_truthy_list exclude_fsets &&
      fg_list.any (fun fg => fg.FeatureDefinitions.isEmpty) then
    Except.error PyErr.attributeError
  else if fg_list.isEmpty then
    Except.error PyErr.valueError
  else
    Except.ok ((fg_list.map (fun fg =>
      if py_truthy_list exclude_fsets then
        fg.FeatureDefinitions.filter
          (fun d => !(exclude_fsets.getD []).contains d.FeatureName)
      else fg.FeatureDefinitions)).flatten)

/-! ## Feature-group creation in the Iceberg notebook (C7)

`orders_feature_group_iceberg.create` is called with the arguments below; the
call is embedded as the record of keyword arguments it passes to the SDK. -/

inductive TableFormatEnum
  | ICEBERG
  | GLUE
deriving DecidableEq, Repr

structure FeatureGroupCreateArgs where
  s3_uri : String
  record_identifier_name : String
  event_time_feature_name : String
  enable_online_store : Bool
  table_format : TableFormatEnum
deriving DecidableEq, Repr

def record_identifier_order_feature_name : String := "order_id"

/-- Shallow embedding of the `orders_feature_group_iceberg.create(...)` call,
as a function of the notebook variables `s3_bucket_name` and the offline-store
folder variable (named `prefix` in the notebook). -/
def orders_feature_group_iceberg_create (s3_bucket_name folder : String) :
    FeatureGroupCreateArgs :=
  { s3_uri := "s3://" ++ s3_bucket_name ++ "/" ++ folder
    record_identifier_name := record_identifier_order_feature_name
    event_time_feature_name := "event_time"
    enable_online_store := true
    table_format := TableFormatEnum.ICEBERG }

/-! ## The batch transform job (C5)

`xgb_transformer.transform` is called with `content_type="text/csv"`,
`split_type="Line"`, `input_filter="$[2:]"`, `join_source="Input"` and no
`output_filter`; the call is embedded as the record of data-processing
attributes of the started job. -/

structure TransformCall where
  data : String
  content_type : String
  split_type : String
  input_filter : String
  join_source : String
  output_filter : String
deriving DecidableEq, Repr

/-- Modelled from the spec: when `output_filter` is not passed, the SageMaker
batch-transform data processing keeps its default output filter `$`,
meaning the whole joined record is saved. -/
def default_output_filter : String := "$"

/-- Shallow embedding of the `xgb_transformer.transform(...)` call of the
batch-scoring notebook. -/
def xgb_transformer_transform (destination_s3_path : String) : TransformCall :=
  { data := destination_s3_path
    content_type := "text/csv"
    split_type := "Line"
    input_filter := "$[2:]"
    join_source := "Input"
    output_filter := default_output_filter }

/-- Modelled from the spec: the JSONPath input filter `$` keeps the whole
input record and `$[2:]` keeps the elements from index 2 on; other JSONPath
expressions are not used by this repository and keep the record unchanged. -/
def apply_record_filter (f : String) (row : List String) : List String :=
  if f = "$" then row
  else if f = "$[2:]" then row.drop 2
  else row

/-- Modelled from the spec: with `join_source="Input"` each output row is the
full input row joined with the prediction; otherwise only the prediction is
emitted. -/
def join_transform_output (join_source : String) (row : List String)
    (prediction : String) : List String :=
  if join_source = "Input" then row ++ [prediction]
  else [prediction]

/-! ## Feature search in the metadata notebook (C4, C8)

`search_features_using_string` builds a `sagemaker_client.search` request over
resource `FeatureMetadata` with three `Contains` filters combined under
`Or`, then post-processes the response:
`pd.json_normalize(response["Results"], max_level=1)`, a column rename taking
`col.split(".")[1]`, and `df.drop("FeatureGroupArn", axis=1)`.  The request is
embedded as a record, the service evaluation of a search expression is
modelled from the spec, and the pandas post-processing is embedded over a
small DataFrame model in which Python exceptions are `Except.error`. -/

structure SearchFilter where
  Name : String
  Operator : String
  Value : String
deriving DecidableEq, Repr

structure SearchExpressionData where
  Filters : List SearchFilter
  Operator : String
deriving DecidableEq, Repr

structure SearchRequest where
  Resource : String
  Expression : SearchExpressionData
deriving DecidableEq, Repr

/-- The request built by `search_features_using_string(search_string)`. -/
def search_features_request (search_string : String) : SearchRequest :=
  { Resource := "FeatureMetadata"
    Expression :=
      { Filters := [
          { Name := "FeatureName", Operator := "Contains", Value := search_string },
          { Name := "Description", Operator := "Contains", Value := search_string },
          { Name := "AllParameters", Operator := "Contains", Value := search_string }]
        Operator := "Or" } }

/-- A feature-metadata document as searched by the service: its name, its
description, and the text of all its key/value parameters. -/
structure FeatureMetadataRecord where
  FeatureName : String
  Description : String
  AllParameters : String
deriving DecidableEq, Repr

/-- Modelled from the spec: the searchable text of a feature-metadata field. -/
def feature_field_text (r : FeatureMetadataRecord) (name : String) : String :=
  if name = "FeatureName" then r.FeatureName
  else if name = "Description" then r.Description
  else if name = "AllParameters" then r.AllParameters
  else ""

/-- Modelled from the spec: a `Contains` filter holds when the named field
contains the filter value as a substring; other operators are not used by
this repository. -/
def eval_search_filter (r : FeatureMetadataRecord) (f : SearchFilter) : Bool :=
  if f.Operator = "Contains" then strContains (feature_field_text r f.Name) f.Value
  else false

/-- Modelled from the spec: a search expression combines its filters with its
boolean operator, `Or` requesting a document when any filter matches. -/
def eval_search_expression (e : SearchExpressionData) (r : FeatureMetadataRecord) : Bool :=
  if e.Operator = "Or" then e.Filters.any (eval_search_filter r)
  else e.Filters.all (eval_search_filter r)

/-- One level of a JSON value, enough for `max_level=1` normalization: a
scalar, or an object of scalar fields. -/
inductive JsonVal
  | prim (s : String)
  | obj (fields : List (String × String))
deriving DecidableEq, Repr

structure PandasDF where
  columns : List String
  rows : List (List String)
deriving DecidableEq, Repr

/-- The flattened column names contributed by one result document:
a scalar key stays itself, an object key `k` contributes `k.field`. -/
def record_columns (r : List (String × JsonVal)) : List String :=
  (r.map (fun kv => match kv.2 with
    | JsonVal.prim _ => [kv.1]
    | JsonVal.obj fs => fs.map (fun f => kv.1 ++ "." ++ f.1))).flatten

/-- Column order of `pd.json_normalize`: order of first appearance. -/
def first_dedup (l : List String) : List String :=
  l.foldl (fun acc k => if k ∈ acc then acc else acc ++ [k]) []

/-- The value of one flattened column in one result document, `"nan"` when the
document has no such column. -/
def record_value (r : List (String × JsonVal)) (col : String) : String :=
  ((r.map (fun kv => match kv.2 with
    | JsonVal.prim v => if kv.1 = col then [v] else []
    | JsonVal.obj fs =>
        fs.filterMap (fun f => if kv.1 ++ "." ++ f.1 = col then some f.2 else none))).flatten).headD
    "nan"

/-- Shallow embedding of `pd.json_normalize(results, max_level=1)`. -/
def json_normalize (results : List (List (String × JsonVal))) : PandasDF :=
  let cols := first_dedup (results.map record_columns).flatten
  { columns := cols, rows := results.map (fun r => cols.map (record_value r)) }

/-- Python `col.split(".")[1]`: `none` is a raised `IndexError`. -/
def rename_split_second (col : String) : Option String :=
  ((splitDot col.data).get? 1).map (fun cs => String.mk cs)

/-- `df.drop(name, axis=1)`: removes the column, raising `KeyError` when the
column is absent. -/
def df_drop_column (df : PandasDF) (name : String) : Except PyErr PandasDF :=
  if name ∈ df.columns then
    Except.ok { columns := df.columns.filter (fun c => c ≠ name)
                rows := df.rows.map (fun row =>
                  ((df.columns.zip row).filter (fun p => p.1 ≠ name)).map (fun p => p.2)) }
  else Except.error (PyErr.keyError name)

/-- Maps a fallible function over a list, failing when any element fails;
the embedding of an eager Python `map` that can raise. -/
def map_all {A B : Type} (f : A -> Option B) : List A -> Option (List B)
  | [] => some []
  | a :: t =>
    match f a, map_all f t with
    | some b, some bs => some (b :: bs)
    | _, _ => none

/-- Shallow embedding of the DataFrame post-processing of
`search_features_using_string`: normalize the results, rename every column to
the segment after the first dot, then drop `FeatureGroupArn`. -/
def search_features_result_df (results : List (List (String × JsonVal))) :
    Except PyErr PandasDF :=
  let df := json_normalize results
  match map_all rename_split_second df.columns with
  | none => Except.error PyErr.indexError
  | some renamed => df_drop_column { df with columns := renamed } "FeatureGroupArn"

/-- The columns of a successful result, `[]` on a raised exception; used to
state column properties without partiality. -/
def ok_columns (r : Except PyErr PandasDF) : List String :=
  match r with
  | Except.ok df => df.columns
  | Except.error _ => []

/-! ## Re-ingestion DataFrame of the update-feature-group notebook (C6)

After `update_feature_group` adds the `has_kids` feature, the notebook loads
`customers.csv`, assigns
`customers_df["has_kids"] = np.random.randint(0, 2, customers_df.shape[0])`,
drops the `event_time` column and assigns a fresh `event_time` column of
generated timestamp strings, one per row.  A DataFrame is embedded
column-oriented with an explicit row count (the pandas index), since pandas
keeps the row count of a frame even when columns are dropped. -/

inductive PVal
  | int (n : Int)
  | str (s : String)
deriving DecidableEq, Repr

structure PandasFrame where
  nrows : Nat
  cols : List (String × List PVal)
deriving DecidableEq, Repr

def col_names (df : PandasFrame) : List String := df.cols.map (fun c => c.1)

/-- Pandas column assignment `df[name] = vs`: replaces the column in place
when present, appends it at the end otherwise. -/
def set_col (df : PandasFrame) (name : String) (vs : List PVal) : PandasFrame :=
  if name ∈ col_names df then
    { df with cols := df.cols.map (fun c => if c.1 = name then (name, vs) else c) }
  else
    { df with cols := df.cols ++ [(name, vs)] }

/-- Pandas `df.drop([name], axis=1)`: removes the column, raising `KeyError`
when it is absent. -/
def drop_col (df : PandasFrame) (name : String) : Except PyErr PandasFrame :=
  if name ∈ col_names df then
    Except.ok { df with cols := df.cols.filter (fun c => c.1 ≠ name) }
  else Except.error (PyErr.keyError name)

/-- Modelled from the spec: `np.random.randint(low, high, n)` draws `n`
integers uniformly from the half-open range `[low, high)`; the draw is
modelled by an arbitrary seed function reduced into that range. -/
def np_random_randint (low high : Int) (n : Nat) (seed : Nat → Int) : List PVal :=
  (List.range n).map (fun i => PVal.int (low + (seed i).emod (high - low)))

/-- Shallow embedding of the re-ingestion preparation of `customers_df`:
assign `has_kids` from `np.random.randint(0, 2, shape[0])`, drop
`event_time`, then assign a fresh `event_time` of generated timestamp strings
(the successive values of `generate_event_timestamp()` are the `clock`
argument, one per row). -/
def prepare_customers_df (df : PandasFrame) (seed : Nat → Int)
    (clock : Nat → String) : Except PyErr PandasFrame :=
  let df1 := set_col df "has_kids" (np_random_randint 0 2 df.nrows seed)
  match drop_col df1 "event_time" with
  | Except.error e => Except.error e
  | Except.ok df2 =>
    let event_timestamps := (List.range df2.nrows).map (fun i => PVal.str (clock i))
    Except.ok (set_col df2 "event_time" event_timestamps)

/-- Every column of the frame has as many entries as the frame has rows. -/
def uniform_frame (df : PandasFrame) : Prop := ∀ c ∈ df.cols, c.2.length = df.nrows

/-! ## The batch-scoring Athena query string (C3)

The batch-scoring notebook joins the double-quoted feature names with a
comma-newline separator into `batch_transform_columns_string` and splices it, the three table names, the three record-identifier features
and the three event-time features into an f-string building the Athena query.
The f-string is embedded verbatim as `query_string`; a second builder,
`query_string_spec`, is written from the words of the claim and proved equal
to it. -/

/-- Wraps a name in double quotes, as the f-string of the notebook does around each feature name. -/
def dq (s : String) : String := "\"" ++ s ++ "\""

/-- The joined, quoted feature-name list of the notebook. -/
def batch_transform_columns_string (features_names : List String) : String :=
  str_join ",\n    " (features_names.map (fun c => dq c))

/-- Shallow embedding, verbatim, of the `query_string` f-string of the
batch-scoring notebook. -/
def query_string (customers_table products_table orders_table
    customer_uid product_uid order_uid
    customer_et product_et order_et : String)
    (features_names : List String) : String :=
  "WITH customer_table AS (\n    SELECT *,\n        dense_rank() OVER (\n            PARTITION BY \"" ++ customer_uid
  ++ "\"\n            ORDER BY \"" ++ customer_et
  ++ "\" DESC,\n                \"api_invocation_time\" DESC,\n                \"write_time\" DESC\n        ) AS \"rank\"\n    FROM \"" ++ customers_table
  ++ "\"\n    WHERE NOT \"is_deleted\"\n),\nproduct_table AS (\n    SELECT *,\n        dense_rank() OVER (\n            PARTITION BY \"" ++ product_uid
  ++ "\"\n            ORDER BY \"" ++ product_et
  ++ "\" DESC,\n                \"api_invocation_time\" DESC,\n                \"write_time\" DESC\n        ) AS \"rank\"\n    FROM \"" ++ products_table
  ++ "\"\n    WHERE NOT \"is_deleted\"\n),\norder_table AS (\n    SELECT *,\n        dense_rank() OVER (\n            PARTITION BY \"" ++ order_uid
  ++ "\"\n            ORDER BY \"" ++ order_et
  ++ "\" DESC,\n                \"api_invocation_time\" DESC,\n                \"write_time\" DESC\n        ) AS \"rank\"\n    FROM \"" ++ orders_table
  ++ "\"\n    WHERE NOT \"is_deleted\"\n)\nSELECT DISTINCT\n    \"" ++ order_uid
  ++ "\",\n    " ++ batch_transform_columns_string features_names
  ++ "\nFROM customer_table,\n    product_table,\n    order_table\nWHERE order_table.\"customer_id\" = customer_table.\"customer_id\"\n    AND order_table.\"product_id\" = product_table.\"product_id\"\n    AND customer_table.\"rank\" = 1\n    AND product_table.\"rank\" = 1\n    AND order_table.\"rank\" = 1\n"

/-- From the words of the claim: a common-table expression restricting
`table_name` to rows satisfying `NOT is_deleted`, with a `rank` computed by
`dense_rank()` partitioned by the record identifier `uid` and ordered by the
event time `et`, `api_invocation_time` and `write_time`, all descending. -/
def ranked_filtered_cte (cte_name table_name uid et : String) : String :=
  cte_name ++ " AS (\n    SELECT *,\n        dense_rank() OVER (\n            PARTITION BY " ++ dq uid
  ++ "\n            ORDER BY " ++ dq et
  ++ " DESC,\n                " ++ dq "api_invocation_time"
  ++ " DESC,\n                " ++ dq "write_time"
  ++ " DESC\n        ) AS " ++ dq "rank"
  ++ "\n    FROM " ++ dq table_name
  ++ "\n    WHERE NOT " ++ dq "is_deleted" ++ "\n)"

/-- From the words of the claim: the output columns are the orders record
identifier first, followed by exactly the feature names in their list order,
each double-quoted. -/
def select_distinct_columns (order_uid : String) (features : List String) : String :=
  str_join ",\n    " (dq order_uid :: features.map (fun c => dq c))

/-- From the words of the claim: orders joined to customers on `customer_id`,
orders joined to products on `product_id`, and each table restricted to its
rank-1 rows. -/
def join_and_rank_conditions : String :=
  "WHERE order_table.\"customer_id\" = customer_table.\"customer_id\"\n    AND order_table.\"product_id\" = product_table.\"product_id\"\n    AND customer_table.\"rank\" = 1\n    AND product_table.\"rank\" = 1\n    AND order_table.\"rank\" = 1\n"

/-- The claim-side query builder: three ranked, `NOT is_deleted`-filtered
common-table expressions, a `SELECT DISTINCT` of the orders record identifier
followed by the feature names, and the join and rank-1 conditions. -/
def query_string_spec (customers_table products_table orders_table
    customer_uid product_uid order_uid
    customer_et product_et order_et : String)
    (features_names : List String) : String :=
  "WITH " ++ ranked_filtered_cte "customer_table" customers_table customer_uid customer_et
  ++ ",\n" ++ ranked_filtered_cte "product_table" products_table product_uid product_et
  ++ ",\n" ++ ranked_filtered_cte "order_table" orders_table order_uid order_et
  ++ "\nSELECT DISTINCT\n    " ++ select_distinct_columns order_uid features_names
  ++ "\nFROM customer_table,\n    product_table,\n    order_table\n"
  ++ join_and_rank_conditions

/-! ## Theorems -/

/-- Two strings with the same character data are equal. -/
theorem string_eq_of_data {x y : String} (h : x.data = y.data) : x = y := by
  cases x
  cases y
  exact congrArg String.mk h

/-- C1: on a status stream made of `k` observations equal to `Creating`
followed by a first different status `s` (and anything after it), the loop
re-polls exactly `k` times, sleeping 5 seconds before each re-poll (`5 * k`
seconds in total), stops at `s` without looking at the remaining statuses, and
returns normally when `s = "Created"` while raising `SystemExit` for every
other final status; the embedding returns nothing but this outcome, performing
no other state change. -/
theorem wait_polls_exactly_while_creating (k : Nat) (s : String) (rest : List String)
    (h : s ≠ "Creating") :
    wait_for_feature_group_creation_complete (List.replicate k "Creating" ++ s :: rest) =
      some ((if s = "Created" then WaitOutcome.success else WaitOutcome.sysExit s), 5 * k) := by
  induction k with
  | zero =>
    simp only [List.replicate, List.nil_append]
    rw [wait_for_feature_group_creation_complete]
    simp only [h, if_false]
    split <;> simp_all
  | succ n ih =>
    simp only [List.replicate_succ, List.cons_append]
    rw [wait_for_feature_group_creation_complete]
    simp [ih, Nat.mul_succ]

/-- Witness for C1: three observed statuses `Creating, Creating, Created` give
a normal return after two 5-second sleeps, and `Creating, CreateFailed` gives
`SystemExit` after one sleep. -/
theorem wait_polls_exactly_while_creating_witness :
    wait_for_feature_group_creation_complete ["Creating", "Creating", "Created"] =
      some (WaitOutcome.success, 10) ∧
    wait_for_feature_group_creation_complete ["Creating", "CreateFailed"] =
      some (WaitOutcome.sysExit "CreateFailed", 5) := by
  constructor
  · have h := wait_polls_exactly_while_creating 2 "Created" [] (by decide)
    simpa using h
  · have h := wait_polls_exactly_while_creating 1 "CreateFailed" [] (by decide)
    simpa using h

/-- C2: the loop terminates exactly when some observed status differs from
`Creating`: the embedded poll produces a result if and only if the status list
contains a status other than `Creating`, and on a stream of `Creating` only it
produces nothing however many observations are made (there is no retry limit
or timeout). -/
theorem wait_terminates_iff_status_leaves_creating (statuses : List String) (n : Nat) :
    ((wait_for_feature_group_creation_complete statuses).isSome = true ↔
      ∃ s ∈ statuses, s ≠ "Creating") ∧
    wait_for_feature_group_creation_complete (List.replicate n "Creating") = none := by
  constructor
  · induction statuses with
    | nil => simp [wait_for_feature_group_creation_complete]
    | cons a t ih =>
      by_cases ha : a = "Creating"
      · subst ha
        rw [wait_for_feature_group_creation_complete]
        simp only [if_true]
        have hmap : (Option.map (fun r => (r.1, r.2 + 5))
            (wait_for_feature_group_creation_complete t)).isSome =
            (wait_for_feature_group_creation_complete t).isSome := by
          cases wait_for_feature_group_creation_complete t <;> rfl
        rw [hmap, ih]
        constructor
        · rintro ⟨s, hs, hne⟩
          exact ⟨s, List.mem_cons_of_mem _ hs, hne⟩
        · rintro ⟨s, hs, hne⟩
          rcases List.mem_cons.mp hs with h | h
          · exact absurd h hne
          · exact ⟨s, h, hne⟩
      · rw [wait_for_feature_group_creation_complete]
        simp only [ha, if_false]
        constructor
        · intro _
          exact ⟨a, List.mem_cons_self a t, ha⟩
        · intro _
          split <;> simp
  · induction n with
    | zero => simp [wait_for_feature_group_creation_complete]
    | succ m ih =>
      simp only [List.replicate_succ]
      rw [wait_for_feature_group_creation_complete]
      simp [ih]

/-- C9: both version gates misclassify numerically newer versions.  The string
comparison gate fires on `2.125.0`, which is numerically newer than `2.48.1`,
triggering a downgrade; the Iceberg gate fires on `3.0.0`, numerically newer
than `2.125.0`, and in general fires on every well-formed version whose minor
component is below 125 regardless of how large the major component is. -/
theorem version_gates_misclassify_newer_versions :
    (sagemaker_version_gate "2.125.0" = true ∧
      parse_version "2.125.0" = some (2, 125, 0) ∧
      parse_version "2.48.1" = some (2, 48, 1) ∧
      version_triple_lt (2, 48, 1) (2, 125, 0) = true) ∧
    (iceberg_version_gate "3.0.0" = some true ∧
      parse_version "3.0.0" = some (3, 0, 0) ∧
      version_triple_lt (2, 125, 0) (3, 0, 0) = true) ∧
    (∀ v ma mi pa, parse_version v = some (ma, mi, pa) → mi < 125 →
      iceberg_version_gate v = some true) := by
  refine ⟨⟨by decide, by decide, by decide, by decide⟩,
    ⟨by decide, by decide, by decide⟩, ?_⟩
  intro v ma mi pa hparse hmi
  unfold parse_version at hparse
  unfold iceberg_version_gate
  cases hsplit : splitDot v.data with
  | nil => rw [hsplit] at hparse; exact absurd hparse (by simp)
  | cons a tl =>
    cases tl with
    | nil => rw [hsplit] at hparse; exact absurd hparse (by simp)
    | cons b tl2 =>
      cases tl2 with
      | nil => rw [hsplit] at hparse; exact absurd hparse (by simp)
      | cons c tl3 =>
        cases tl3 with
        | cons d tl4 => rw [hsplit] at hparse; exact absurd hparse (by simp)
        | nil =>
          rw [hsplit] at hparse
          simp only at hparse
          cases hA : digitsToNat? a with
          | none => rw [hA] at hparse; exact absurd hparse (by simp)
          | some x =>
            cases hB : digitsToNat? b with
            | none => rw [hA, hB] at hparse; exact absurd hparse (by simp)
            | some y =>
              cases hC : digitsToNat? c with
              | none => rw [hA, hB, hC] at hparse; exact absurd hparse (by simp)
              | some z =>
                rw [hA, hB, hC] at hparse
                simp only [Option.some.injEq, Prod.mk.injEq] at hparse
                obtain ⟨hx, hy, _⟩ := hparse
                simp only [hA, hB]
                subst hx
                subst hy
                simp [hmi]

/-- Witness for C9: the general Iceberg-gate conjunct applied at `2.124.9`,
whose minor component 124 is below 125, makes the gate fire. -/
theorem version_gates_misclassify_newer_versions_witness :
    iceberg_version_gate "2.124.9" = some true :=
  version_gates_misclassify_newer_versions.2.2 "2.124.9" 2 124 9 (by decide) (by decide)

/-- Filtering distributes over flattening a list of lists. -/
theorem flatten_map_filter {α : Type} (p : α → Bool) (l : List (List α)) :
    (l.map (List.filter p)).flatten = l.flatten.filter p := by
  induction l with
  | nil => rfl
  | cons x xs ih =>
    rw [List.map_cons, List.flatten_cons, List.flatten_cons, List.filter_append, ih]

/-- C10, amended: on every non-empty list of feature-group descriptions whose
groups all have a non-empty `FeatureDefinitions` list whenever the exclusion
list is non-empty (the inputs on which the source does not raise),
`generate_fsets` returns `Except.ok` of the concatenation of the groups
`FeatureDefinitions` in the order the groups are given, with every definition
whose `FeatureName` appears in the exclusion list removed: the result is
exactly the filtered concatenation, no excluded name survives in it, the
surviving definitions stay in order (a sublist of the plain concatenation),
and with a `None` or empty exclusion list nothing is removed. -/
theorem generate_fsets_filters_concatenation
    (fgs : List FeatureGroupDescription) (ex : List String)
    (hne : fgs ≠ [])
    (hdefs : ex ≠ [] → ∀ fg ∈ fgs, fg.FeatureDefinitions ≠ []) :
    (generate_fsets fgs (some ex) =
      Except.ok ((fgs.map (fun fg => fg.FeatureDefinitions)).flatten.filter
        (fun d => !ex.contains d.FeatureName))) ∧
    (((fgs.map (fun fg => fg.FeatureDefinitions)).flatten.filter
        (fun d => !ex.contains d.FeatureName)).all
      (fun d => !ex.contains d.FeatureName) = true) ∧
    List.Sublist
      ((fgs.map (fun fg => fg.FeatureDefinitions)).flatten.filter
        (fun d => !ex.contains d.FeatureName))
      (fgs.map (fun fg => fg.FeatureDefinitions)).flatten ∧
    generate_fsets fgs none =
      Except.ok (fgs.map (fun fg => fg.FeatureDefinitions)).flatten ∧
    generate_fsets fgs (some []) =
      Except.ok (fgs.map (fun fg => fg.FeatureDefinitions)).flatten := by
  have hisE : fgs.isEmpty = false := by
    cases fgs with
    | nil => exact absurd rfl hne
    | cons a t => rfl
  have hmain : generate_fsets fgs (some ex) =
      Except.ok ((fgs.map (fun fg => fg.FeatureDefinitions)).flatten.filter
        (fun d => !ex.contains d.FeatureName)) := by
    by_cases hex : ex.isEmpty
    · have hnil : ex = [] := List.isEmpty_iff.mp hex
      subst hnil
      unfold generate_fsets
      have hall : (List.filter (fun d : FeatureDefinition =>
          !List.contains [] d.FeatureName)
          (fgs.map (fun fg => fg.FeatureDefinitions)).flatten) =
          (fgs.map (fun fg => fg.FeatureDefinitions)).flatten := by
        apply List.filter_eq_self.mpr
        intro a _
        rfl
      simp only [py_truthy_list, List.isEmpty_nil, Bool.not_true, Bool.false_and,
        Bool.false_eq_true, if_false, hisE]
      rw [hall]
    · have hexf : ex.isEmpty = false := Bool.eq_false_iff.mpr hex
      have hexne : ex ≠ [] := fun h => hex (by rw [h]; rfl)
      have hany : fgs.any (fun fg => fg.FeatureDefinitions.isEmpty) = false := by
        rw [List.any_eq_false]
        intro fg hfg h
        exact hdefs hexne fg hfg (List.isEmpty_iff.mp h)
      unfold generate_fsets
      simp only [py_truthy_list, hexf, Bool.not_false, hany, Bool.and_false,
        Bool.false_eq_true, if_false, hisE, Option.getD_some, if_true]
      rw [show (fgs.map fun fg =>
          fg.FeatureDefinitions.filter fun d => !ex.contains d.FeatureName) =
          (fgs.map (fun fg => fg.FeatureDefinitions)).map
            (List.filter fun d => !ex.contains d.FeatureName) by
        simp [List.map_map]]
      rw [flatten_map_filter]
  refine ⟨hmain, ?_, List.filter_sublist _, ?_, ?_⟩
  · simp only [List.all_eq_true]
    intro d hd
    exact (List.mem_filter.mp hd).2
  · simp [generate_fsets, py_truthy_list, hisE]
  · simp [generate_fsets, py_truthy_list, hisE]

/-- Witness for C10: one group with two definitions, one excluded name. -/
theorem generate_fsets_filters_concatenation_witness :
    (generate_fsets [FeatureGroupDescription.mk "orders"
        [FeatureDefinition.mk "order_id" "String", FeatureDefinition.mk "n_days" "Integral"]]
      (some ["order_id"]) =
      Except.ok (([FeatureGroupDescription.mk "orders"
          [FeatureDefinition.mk "order_id" "String",
           FeatureDefinition.mk "n_days" "Integral"]].map
            (fun fg => fg.FeatureDefinitions)).flatten.filter
        (fun d => !(["order_id"].contains d.FeatureName)))) ∧
    ((([FeatureGroupDescription.mk "orders"
        [FeatureDefinition.mk "order_id" "String",
         FeatureDefinition.mk "n_days" "Integral"]].map
          (fun fg => fg.FeatureDefinitions)).flatten.filter
        (fun d => !(["order_id"].contains d.FeatureName))).all
      (fun d => !(["order_id"].contains d.FeatureName)) = true) ∧
    List.Sublist
      (([FeatureGroupDescription.mk "orders"
          [FeatureDefinition.mk "order_id" "String",
           FeatureDefinition.mk "n_days" "Integral"]].map
            (fun fg => fg.FeatureDefinitions)).flatten.filter
        (fun d => !(["order_id"].contains d.FeatureName)))
      ([FeatureGroupDescription.mk "orders"
          [FeatureDefinition.mk "order_id" "String",
           FeatureDefinition.mk "n_days" "Integral"]].map
            (fun fg => fg.FeatureDefinitions)).flatten ∧
    generate_fsets [FeatureGroupDescription.mk "orders"
        [FeatureDefinition.mk "order_id" "String",
         FeatureDefinition.mk "n_days" "Integral"]] none =
      Except.ok ([FeatureGroupDescription.mk "orders"
          [FeatureDefinition.mk "order_id" "String",
           FeatureDefinition.mk "n_days" "Integral"]].map
            (fun fg => fg.FeatureDefinitions)).flatten ∧
    generate_fsets [FeatureGroupDescription.mk "orders"
        [FeatureDefinition.mk "order_id" "String",
         FeatureDefinition.mk "n_days" "Integral"]]
      (some []) =
      Except.ok ([FeatureGroupDescription.mk "orders"
          [FeatureDefinition.mk "order_id" "String",
           FeatureDefinition.mk "n_days" "Integral"]].map
            (fun fg => fg.FeatureDefinitions)).flatten :=
  generate_fsets_filters_concatenation
    [FeatureGroupDescription.mk "orders"
      [FeatureDefinition.mk "order_id" "String", FeatureDefinition.mk "n_days" "Integral"]]
    ["order_id"] (by decide) (fun _ => by decide)

/-- Counterexample for C10: at the empty group list the claimed concatenation
would be the empty list, but `pd.concat` of no objects raises `ValueError`;
and under a truthy exclusion list a group whose `FeatureDefinitions` is empty
raises `AttributeError` instead of contributing nothing. -/
theorem generate_fsets_raises_counterexample :
    generate_fsets [] none = Except.error PyErr.valueError ∧
    generate_fsets [] none ≠ Except.ok [] ∧
    generate_fsets [FeatureGroupDescription.mk "orders" []]
      (some ["order_id"]) = Except.error PyErr.attributeError := by
  refine ⟨rfl, ?_, rfl⟩
  intro h
  exact Except.noConfusion h

/-- C7: the orders feature group of the Iceberg notebook is created with the
ICEBERG table format, record identifier `order_id`, event-time feature
`event_time`, the online store enabled, and an offline store rooted at
the `s3://bucket/prefix` URI built from the notebook variables; the Iceberg format is one keyword argument of the
same create call that configures the offline-store root and the online store,
hence purely an offline-store option of that call. -/
theorem orders_iceberg_create_configuration (s3_bucket_name folder : String) :
    (orders_feature_group_iceberg_create s3_bucket_name folder).table_format =
      TableFormatEnum.ICEBERG ∧
    (orders_feature_group_iceberg_create s3_bucket_name folder).record_identifier_name =
      "order_id" ∧
    (orders_feature_group_iceberg_create s3_bucket_name folder).event_time_feature_name =
      "event_time" ∧
    (orders_feature_group_iceberg_create s3_bucket_name folder).enable_online_store = true ∧
    (orders_feature_group_iceberg_create s3_bucket_name folder).s3_uri =
      "s3://" ++ s3_bucket_name ++ "/" ++ folder :=
  ⟨rfl, rfl, rfl, rfl, rfl⟩

/-- C5: the batch transform job is always started with
`input_filter="$[2:]"` — so columns 0 and 1 of each input line are excluded
from the model input and all remaining columns are kept —
`join_source="Input"` — so each output row joins the full input row with its
prediction — `split_type="Line"`, `content_type="text/csv"`, and the output
filter left at its default `$`, which keeps the whole joined record. -/
theorem xgb_transform_call_configuration (destination_s3_path : String)
    (c0 c1 prediction : String) (rest row : List String) :
    (xgb_transformer_transform destination_s3_path).input_filter = "$[2:]" ∧
    apply_record_filter (xgb_transformer_transform destination_s3_path).input_filter
      (c0 :: c1 :: rest) = rest ∧
    (xgb_transformer_transform destination_s3_path).join_source = "Input" ∧
    join_transform_output (xgb_transformer_transform destination_s3_path).join_source
      row prediction = row ++ [prediction] ∧
    (xgb_transformer_transform destination_s3_path).split_type = "Line" ∧
    (xgb_transformer_transform destination_s3_path).content_type = "text/csv" ∧
    (xgb_transformer_transform destination_s3_path).output_filter = "$" ∧
    apply_record_filter (xgb_transformer_transform destination_s3_path).output_filter
      row = row := by
  refine ⟨rfl, ?_, rfl, rfl, rfl, rfl, rfl, rfl⟩
  simp [apply_record_filter, xgb_transformer_transform]

/-- `map_all` fails when any element fails. -/
theorem map_all_eq_none_of_mem {A B : Type} (f : A -> Option B) (l : List A) (x : A)
    (hx : x ∈ l) (hfx : f x = none) : map_all f l = none := by
  induction l with
  | nil => cases hx
  | cons a t ih =>
    rcases List.mem_cons.mp hx with h | h
    · subst h
      rw [map_all, hfx]
    · cases hfa : f a with
      | none => rw [map_all, hfa]
      | some b => rw [map_all, hfa, ih h]

/-- C4: for every search string `s`, `search_features_using_string` issues a
search over resource `FeatureMetadata` whose expression holds exactly three
`Contains` filters — on `FeatureName`, `Description` and `AllParameters`, each
with value `s` — combined under `Or`, so a document is requested exactly when
one of feature name, description or parameters contains `s`; and whenever the
DataFrame post-processing returns a result, the `FeatureGroupArn` column has
been removed from it. -/
theorem search_features_request_and_result (s : String) (r : FeatureMetadataRecord)
    (results : List (List (String × JsonVal))) :
    (search_features_request s).Resource = "FeatureMetadata" ∧
    (search_features_request s).Expression.Filters = [
      ⟨"FeatureName", "Contains", s⟩,
      ⟨"Description", "Contains", s⟩,
      ⟨"AllParameters", "Contains", s⟩] ∧
    (search_features_request s).Expression.Operator = "Or" ∧
    (eval_search_expression (search_features_request s).Expression r =
      (strContains r.FeatureName s || strContains r.Description s ||
        strContains r.AllParameters s)) ∧
    "FeatureGroupArn" ∉ ok_columns (search_features_result_df results) ∧
    search_features_result_df
      [[("FeatureMetadata", JsonVal.obj
          [("FeatureName", "is_married"), ("FeatureType", "String"),
           ("FeatureGroupArn", "arn:aws:sagemaker:fg/customers")])]] =
      Except.ok { columns := ["FeatureName", "FeatureType"]
                  rows := [["is_married", "String"]] } := by
  refine ⟨rfl, rfl, rfl, ?_, ?_, by rfl⟩
  · simp [eval_search_expression, search_features_request, eval_search_filter,
      feature_field_text, Bool.or_assoc]
  · unfold search_features_result_df
    cases hm : map_all rename_split_second (json_normalize results).columns with
    | none => simp only [hm, ok_columns, List.not_mem_nil, not_false_eq_true]
    | some renamed =>
      simp only [hm]
      unfold df_drop_column
      by_cases hmem : "FeatureGroupArn" ∈ renamed
      · simp only [hmem, if_true, ok_columns]
        intro hcontra
        have h2 := (List.mem_filter.mp hcontra).2
        simp at h2
      · simp only [hmem, if_false, ok_columns]
        exact List.not_mem_nil _

/-- A dot-free character list is kept whole by `splitDot`. -/
theorem splitDot_eq_singleton_of_no_dot (l : List Char) (h : '.' ∉ l) :
    splitDot l = [l] := by
  induction l with
  | nil => rfl
  | cons c rest ih =>
    have hc : c ≠ '.' := fun hc => h (hc ▸ List.mem_cons_self c rest)
    have hrest : '.' ∉ rest := fun hr => h (List.mem_cons_of_mem c hr)
    rw [splitDot]
    simp only [hc, if_false]
    rw [ih hrest]

/-- The rename `col.split(".")[1]` raises `IndexError` on a dot-free name. -/
theorem rename_split_second_eq_none_of_no_dot (c : String) (h : '.' ∉ c.data) :
    rename_split_second c = none := by
  unfold rename_split_second
  rw [splitDot_eq_singleton_of_no_dot c.data h]
  rfl

/-- C8: `search_features_using_string` is partial at its public interface.
The column rename raises `IndexError` as soon as any normalized column name
contains no dot; once all columns rename, the drop raises `KeyError` whenever
`FeatureGroupArn` is not among the renamed columns; in particular on an empty
result list the function raises `KeyError` instead of returning an empty
DataFrame. -/
theorem search_features_partiality
    (results : List (List (String × JsonVal))) (renamed : List String) :
    ((∃ c ∈ (json_normalize results).columns, '.' ∉ c.data) →
      search_features_result_df results = Except.error PyErr.indexError) ∧
    (map_all rename_split_second (json_normalize results).columns = some renamed →
      "FeatureGroupArn" ∉ renamed →
      search_features_result_df results = Except.error (PyErr.keyError "FeatureGroupArn")) ∧
    search_features_result_df [] = Except.error (PyErr.keyError "FeatureGroupArn") := by
  refine ⟨?_, ?_, by rfl⟩
  · rintro ⟨c, hc, hnd⟩
    have hnone : map_all rename_split_second (json_normalize results).columns = none :=
      map_all_eq_none_of_mem _ _ c hc (rename_split_second_eq_none_of_no_dot c hnd)
    simp only [search_features_result_df]
    rw [hnone]
  · intro hm hmem
    simp only [search_features_result_df]
    rw [hm]
    unfold df_drop_column
    simp only [hmem, if_false]

/-- Witness for C8: a result with the dot-free column `Foo` raises
`IndexError`; a result whose only column renames to `FeatureName` (no
`FeatureGroupArn`) raises `KeyError`. -/
theorem search_features_partiality_witness :
    search_features_result_df [[("Foo", JsonVal.prim "x")]] =
      Except.error PyErr.indexError ∧
    search_features_result_df [[("FM", JsonVal.obj [("FeatureName", "f1")])]] =
      Except.error (PyErr.keyError "FeatureGroupArn") := by
  constructor
  · exact (search_features_partiality [[("Foo", JsonVal.prim "x")]] []).1
      ⟨"Foo", by decide, by decide⟩
  · exact (search_features_partiality
      [[("FM", JsonVal.obj [("FeatureName", "f1")])]] ["FeatureName"]).2.1
      (by rfl) (by decide)

/-- C6: starting from the loaded CSV frame (which has an `event_time` column
and no `has_kids` column), the preparation succeeds and changes exactly two
columns: every original column except `event_time` survives unchanged and in
order, a new `has_kids` column whose every value lies in the set of 0 and 1 is appended,
the original `event_time` column is dropped and a fresh `event_time` column of
generated timestamp strings (one per row) is appended, and the number of rows
is preserved, every column keeping one value per row. -/
theorem prepare_customers_df_changes_two_columns (df : PandasFrame)
    (seed : Nat → Int) (clock : Nat → String)
    (hk : "has_kids" ∉ col_names df) (he : "event_time" ∈ col_names df)
    (hu : uniform_frame df) :
    ∃ df', prepare_customers_df df seed clock = Except.ok df' ∧
      df'.cols = df.cols.filter (fun c => c.1 ≠ "event_time") ++
        [("has_kids", np_random_randint 0 2 df.nrows seed),
         ("event_time", (List.range df.nrows).map (fun i => PVal.str (clock i)))] ∧
      (∀ v ∈ np_random_randint 0 2 df.nrows seed, v = PVal.int 0 ∨ v = PVal.int 1) ∧
      df'.nrows = df.nrows ∧ uniform_frame df' := by
  have h1 : set_col df "has_kids" (np_random_randint 0 2 df.nrows seed) =
      { df with cols := df.cols ++
          [("has_kids", np_random_randint 0 2 df.nrows seed)] } := by
    unfold set_col
    rw [if_neg hk]
  have hnames1 : "event_time" ∈ col_names { df with cols := df.cols ++
      [("has_kids", np_random_randint 0 2 df.nrows seed)] } := by
    unfold col_names at he ⊢
    simp only [List.map_append, List.mem_append]
    exact Or.inl he
  have h2 : drop_col { df with cols := df.cols ++
      [("has_kids", np_random_randint 0 2 df.nrows seed)] } "event_time" =
      Except.ok { df with cols := df.cols.filter (fun c => c.1 ≠ "event_time") ++
        [("has_kids", np_random_randint 0 2 df.nrows seed)] } := by
    unfold drop_col
    rw [if_pos hnames1]
    simp [List.filter_append]
  have hnames2 : "event_time" ∉ col_names { df with
      cols := df.cols.filter (fun c => c.1 ≠ "event_time") ++
        [("has_kids", np_random_randint 0 2 df.nrows seed)] } := by
    unfold col_names
    simp only [List.map_append, List.mem_append]
    rintro (hmem | hmem)
    · rcases List.mem_map.mp hmem with ⟨c, hc, hceq⟩
      have := (List.mem_filter.mp hc).2
      simp only [decide_eq_true_eq] at this
      exact this hceq
    · simp at hmem
  have h3 : prepare_customers_df df seed clock =
      Except.ok (set_col { df with
        cols := df.cols.filter (fun c => c.1 ≠ "event_time") ++
          [("has_kids", np_random_randint 0 2 df.nrows seed)] } "event_time"
        ((List.range df.nrows).map (fun i => PVal.str (clock i)))) := by
    unfold prepare_customers_df
    simp only [h1]
    rw [h2]
  have h4 : set_col { df with
      cols := df.cols.filter (fun c => c.1 ≠ "event_time") ++
        [("has_kids", np_random_randint 0 2 df.nrows seed)] } "event_time"
      ((List.range df.nrows).map (fun i => PVal.str (clock i))) =
      { df with cols := df.cols.filter (fun c => c.1 ≠ "event_time") ++
        [("has_kids", np_random_randint 0 2 df.nrows seed),
         ("event_time", (List.range df.nrows).map (fun i => PVal.str (clock i)))] } := by
    unfold set_col
    rw [if_neg hnames2]
    simp
  refine ⟨{ df with cols := df.cols.filter (fun c => c.1 ≠ "event_time") ++
      [("has_kids", np_random_randint 0 2 df.nrows seed),
       ("event_time", (List.range df.nrows).map (fun i => PVal.str (clock i)))] },
    by rw [h3, h4], rfl, ?_, rfl, ?_⟩
  · intro v hv
    unfold np_random_randint at hv
    rcases List.mem_map.mp hv with ⟨i, _, hveq⟩
    have h20 : (2 : Int) - 0 = 2 := by decide
    have h01 : Int.emod (seed i) 2 = 0 ∨ Int.emod (seed i) 2 = 1 :=
      Int.emod_two_eq_zero_or_one (seed i)
    rcases h01 with h01 | h01
    · left
      rw [← hveq, h20, h01]
      decide
    · right
      rw [← hveq, h20, h01]
      decide
  · unfold uniform_frame
    intro c hc
    simp only [List.append_assoc, List.mem_append] at hc
    rcases hc with hc | hc
    · exact hu c (List.mem_of_mem_filter hc)
    · simp only [List.mem_cons, List.not_mem_nil, or_false] at hc
      rcases hc with hc | hc
      · subst hc
        simp [np_random_randint]
      · subst hc
        simp

/-- Witness for C6: a two-column frame with one row, a seed drawing 1 and a
clock producing `"T"`, run through the preparation. -/
theorem prepare_customers_df_changes_two_columns_witness :
    ∃ df', prepare_customers_df
        { nrows := 1,
          cols := [("customer_id", [PVal.int 7]), ("event_time", [PVal.str "t0"])] }
        (fun _ => 1) (fun _ => "T") = Except.ok df' ∧
      df'.cols = (PandasFrame.mk 1
          [("customer_id", [PVal.int 7]), ("event_time", [PVal.str "t0"])]).cols.filter
          (fun c => c.1 ≠ "event_time") ++
        [("has_kids", np_random_randint 0 2 1 (fun _ => 1)),
         ("event_time", (List.range 1).map (fun _ => PVal.str "T"))] ∧
      (∀ v ∈ np_random_randint 0 2 1 (fun _ => 1), v = PVal.int 0 ∨ v = PVal.int 1) ∧
      df'.nrows = 1 ∧ uniform_frame df' :=
  prepare_customers_df_changes_two_columns
    { nrows := 1,
      cols := [("customer_id", [PVal.int 7]), ("event_time", [PVal.str "t0"])] }
    (fun _ => 1) (fun _ => "T") (by decide) (by decide)
    (by unfold uniform_frame; decide)

set_option maxRecDepth 100000 in
/-- C3, amended to non-empty feature-name lists (at the empty list the
notebook string keeps a dangling comma, see the counterexample): for every
choice of table names, record-identifier features, event-time features and
non-empty feature-name list, the query string built by the notebook is a
deterministic function of those inputs equal to the claim-side builder: each of the customers, products and orders tables is
restricted to `NOT is_deleted` rows ranked 1 by `dense_rank()` partitioned on
its record identifier and ordered by its event time, `api_invocation_time` and
`write_time` descending, orders is joined to customers on `customer_id` and to
products on `product_id`, and the `SELECT DISTINCT` lists the orders record
identifier first, followed by exactly the feature names in order. -/
theorem query_string_matches_claim (customers_table products_table orders_table
    customer_uid product_uid order_uid
    customer_et product_et order_et : String)
    (features_names : List String) (h : features_names ≠ []) :
    query_string customers_table products_table orders_table
      customer_uid product_uid order_uid
      customer_et product_et order_et features_names =
    query_string_spec customers_table products_table orders_table
      customer_uid product_uid order_uid
      customer_et product_et order_et features_names := by
  match features_names, h with
  | f :: fs, _ =>
    apply string_eq_of_data
    simp [query_string, query_string_spec, ranked_filtered_cte,
      select_distinct_columns, join_and_rank_conditions,
      batch_transform_columns_string, str_join, dq, String.data_append]

/-- Witness for C3: concrete tables, identifiers and a two-feature list. -/
theorem query_string_matches_claim_witness :
    query_string "customers-tbl" "products-tbl" "orders-tbl"
      "customer_id" "product_id" "order_id"
      "event_time" "event_time" "event_time" ["n_days_active", "is_married"] =
    query_string_spec "customers-tbl" "products-tbl" "orders-tbl"
      "customer_id" "product_id" "order_id"
      "event_time" "event_time" "event_time" ["n_days_active", "is_married"] :=
  query_string_matches_claim "customers-tbl" "products-tbl" "orders-tbl"
    "customer_id" "product_id" "order_id"
    "event_time" "event_time" "event_time" ["n_days_active", "is_married"]
    (by decide)

set_option maxRecDepth 100000 in
/-- Counterexample for C3: at the empty feature-name list the notebook string
keeps a dangling comma after the orders record identifier (the text
`"order_id",` followed by a blank continuation line before `FROM`), so it
differs from the claimed shape in which the identifier is followed by exactly
the feature names. -/
theorem query_string_empty_features_counterexample :
    query_string "customers-tbl" "products-tbl" "orders-tbl"
      "customer_id" "product_id" "order_id"
      "event_time" "event_time" "event_time" [] ≠
    query_string_spec "customers-tbl" "products-tbl" "orders-tbl"
      "customer_id" "product_id" "order_id"
      "event_time" "event_time" "event_time" [] ∧
    strContains (query_string "customers-tbl" "products-tbl" "orders-tbl"
      "customer_id" "product_id" "order_id"
      "event_time" "event_time" "event_time" [])
      "\"order_id\",\n    \nFROM" = true := by
  constructor
  · have hne : (query_string "customers-tbl" "products-tbl" "orders-tbl"
        "customer_id" "product_id" "order_id"
        "event_time" "event_time" "event_time" []).data ≠
        (query_string_spec "customers-tbl" "products-tbl" "orders-tbl"
          "customer_id" "product_id" "order_id"
          "event_time" "event_time" "event_time" []).data := by decide
    intro h
    exact hne (congrArg String.data h)
  · decide
